import Mathlib

/-!
Shallow embedding of the Wikipedia-clone client code: the article
renderer of src/js/app.js and the fragment loader of
src/js/parts-loader.js.  JavaScript records become structures, optional
fields become Option, template-literal emission becomes String
concatenation, and the DOM becomes an explicit node tree.  Strings are
transcribed verbatim from the source, including the whitespace of the
template literals.
-/

namespace Wiki

/-- JavaScript falsy-or on an optional string, mirroring `a || d`:
an absent or empty string selects the default. -/
def jsOr : Option String → String → String
  | none, d => d
  | some s, d => if s == "" then d else s

/-- JavaScript truthiness of an optional string field: present and
non-empty. -/
def truthyStr : Option String → Bool
  | none => false
  | some s => s != ""

/-- Concatenation of rendered pieces, mirroring the `html += f(item)`
loops of the source. -/
def concatMap {α : Type} (f : α → String) : List α → String
  | [] => ""
  | x :: xs => f x ++ concatMap f xs

/-- Emission guarded by presence of an optional record field, mirroring
`if (data.field) html += render(data.field)`. -/
def optStr {α : Type} (o : Option α) (f : α → String) : String :=
  match o with
  | none => ""
  | some x => f x

/-- Emission guarded by JavaScript truthiness of an optional string
field, mirroring `if (data.field) html += g(data.field)` where the
field is a string (the empty string is falsy). -/
def optStrT (o : Option String) (f : String → String) : String :=
  match o with
  | none => ""
  | some s => if s == "" then "" else f s

/-- A table-of-contents entry of app.js: `{id, number, title,
children?}`.  An absent `children` array is modelled as the empty list,
which the renderer treats identically. -/
inductive TocNode where
  | mk : String → String → String → List TocNode → TocNode

/-- Identifier of a toc entry (anchor target). -/
def TocNode.id : TocNode → String
  | .mk i _ _ _ => i

/-- Display number of a toc entry. -/
def TocNode.number : TocNode → String
  | .mk _ n _ _ => n

/-- Title of a toc entry. -/
def TocNode.title : TocNode → String
  | .mk _ _ t _ => t

/-- Children of a toc entry. -/
def TocNode.children : TocNode → List TocNode
  | .mk _ _ _ c => c

/-- The notice record `{type?, icon?, title, text}` of app.js. -/
structure Notice where
  type : Option String
  icon : Option String
  title : String
  text : String

/-- One infobox data row `{label, value}`. -/
structure InfoRow where
  label : String
  value : String

/-- The infobox record `{title, image?, imageCaption?, rows}`. -/
structure Infobox where
  title : String
  image : Option String
  imageCaption : Option String
  rows : List InfoRow

/-- A subsection `{id, title, content}`. -/
structure Subsection where
  id : String
  title : String
  content : String

/-- A section table `{caption?, headers, rows}`. -/
structure TableData where
  caption : Option String
  headers : List String
  rows : List (List String)

/-- One column of a column layout `{title, items}`. -/
structure Column where
  title : String
  items : List String

/-- A category or related-link entry: either a plain string or a
`{title, url}` record (the source discriminates with
`typeof x === 'object' && x.url`). -/
inductive LinkEntry where
  | plain : String → LinkEntry
  | record : String → String → LinkEntry

/-- An external-link entry `{title, url}`. -/
structure ExtLink where
  title : String
  url : String

/-- A section record of app.js. -/
structure Section where
  id : String
  title : String
  content : Option String
  subsections : Option (List Subsection)
  table : Option TableData
  columns : Option (List Column)
  relatedLinks : Option (List LinkEntry)
  references : Option (List String)
  externalLinks : Option (List ExtLink)

/-- The top-level article record of app.js (§`renderArticle`). -/
structure ArticleRecord where
  title : String
  intro : String
  notice : Option Notice
  toc : List TocNode
  infobox : Option Infobox
  sections : List Section
  categories : List LinkEntry
  lastModified : Option String

/-- Embedding of `renderNotice` (app.js lines 76 to 86): the template
literal with `notice.type || 'info'` and `notice.icon || 'ℹ️'`. -/
def renderNotice (n : Notice) : String :=
  "\n            <div class=\"article-notice " ++ jsOr n.type "info"
  ++ "\">\n                <span class=\"notice-icon\">" ++ jsOr n.icon "ℹ️"
  ++ "</span>\n                <div class=\"notice-content\">\n                    <b>"
  ++ n.title ++ "</b> " ++ n.text
  ++ "\n                </div>\n            </div>\n        "

/-- The fixed opening of the toc container emitted by `renderToc`
(app.js lines 92 to 99), before any list item. -/
def tocOpen : String :=
  "\n            <div class=\"toc\">\n                <div class=\"toc-title\">\n                    <span>目次</span>\n                    <span class=\"toc-toggle\" onclick=\"toggleToc()\">[非表示]</span>\n                </div>\n                <ul id=\"toc-list\">\n        "

/-- One nested (depth-2) toc list item (app.js line 106).  The child's
own `children` field is never read. -/
def tocChildLi : TocNode → String
  | .mk i n t _ =>
    "<li><a href=\"#" ++ i ++ "\"><span class=\"toc-number\">" ++ n
    ++ "</span> " ++ t ++ "</a></li>"

/-- One outer toc list item (app.js lines 102 to 110): the entry anchor
followed, when `children` is non-empty, by a single nested list. -/
def tocItemHtml : TocNode → String
  | .mk i n t cs =>
    "<li><a href=\"#" ++ i ++ "\"><span class=\"toc-number\">" ++ n
    ++ "</span> " ++ t ++ "</a>"
    ++ (if 0 < cs.length then "<ul>" ++ concatMap tocChildLi cs ++ "</ul>" else "")
    ++ "</li>"

/-- Embedding of `renderToc` (app.js lines 91 to 115). -/
def renderToc (items : List TocNode) : String :=
  tocOpen ++ concatMap tocItemHtml items ++ "</ul></div>"

/-- The opening of the infobox table (app.js lines 121 to 127). -/
def infoboxOpen (t : String) : String :=
  "\n            <div class=\"infobox\">\n                <table>\n                    <tr class=\"infobox-header\">\n                        <th colspan=\"2\">"
  ++ t ++ "</th>\n                    </tr>\n        "

/-- The image-placeholder row of the infobox (app.js lines 131 to 145),
taking the resolved caption `infobox.imageCaption || ''`. -/
def infoboxImageRow (caption : String) : String :=
  "\n                <tr>\n                    <td colspan=\"2\" class=\"infobox-image\">\n                        <div class=\"image-placeholder\">\n                            <svg xmlns=\"http://www.w3.org/2000/svg\" width=\"120\" height=\"120\" viewBox=\"0 0 24 24\" fill=\"none\" stroke=\"#666\" stroke-width=\"1\">\n                                <circle cx=\"12\" cy=\"12\" r=\"10\"/>\n                                <path d=\"M8 14s1.5 2 4 2 4-2 4-2\"/>\n                                <circle cx=\"9\" cy=\"9\" r=\"1\" fill=\"#666\"/>\n                                <circle cx=\"15\" cy=\"9\" r=\"1\" fill=\"#666\"/>\n                            </svg>\n                            <p class=\"image-caption\">"
  ++ caption
  ++ "</p>\n                        </div>\n                    </td>\n                </tr>\n            "

/-- One infobox data row (app.js lines 150 to 155). -/
def infoboxRow (r : InfoRow) : String :=
  "\n                <tr>\n                    <th>" ++ r.label
  ++ "</th>\n                    <td>" ++ r.value
  ++ "</td>\n                </tr>\n            "

/-- Embedding of `renderInfobox` (app.js lines 120 to 160); the image
row is emitted when `infobox.image || infobox.imageCaption` is truthy. -/
def renderInfobox (ib : Infobox) : String :=
  infoboxOpen ib.title
  ++ (if truthyStr ib.image || truthyStr ib.imageCaption then
        infoboxImageRow (optStr ib.imageCaption (fun c => c))
      else "")
  ++ concatMap infoboxRow ib.rows
  ++ "</table></div>"

/-- Embedding of `renderTable` (app.js lines 214 to 233). -/
def renderTable (t : TableData) : String :=
  "<table class=\"wikitable\">"
  ++ optStrT t.caption (fun c => "<caption>" ++ c ++ "</caption>")
  ++ "<tr>" ++ concatMap (fun h => "<th>" ++ h ++ "</th>") t.headers ++ "</tr>"
  ++ concatMap (fun row => "<tr>" ++ concatMap (fun cell => "<td>" ++ cell ++ "</td>") row ++ "</tr>") t.rows
  ++ "</table>"

/-- One column of `renderColumns` (app.js lines 240 to 247). -/
def columnHtml (c : Column) : String :=
  "<div class=\"column\">" ++ "<h4>" ++ c.title ++ "</h4><ul>"
  ++ concatMap (fun item => "<li>" ++ item ++ "</li>") c.items
  ++ "</ul></div>"

/-- Embedding of `renderColumns` (app.js lines 238 to 250). -/
def renderColumns (cols : List Column) : String :=
  "<div class=\"columns\">" ++ concatMap columnHtml cols ++ "</div>"

/-- What JavaScript interpolates for a link entry in the plain branch:
a string interpolates to itself, a record to its object stringification. -/
def linkEntryStr : LinkEntry → String
  | .plain s => s
  | .record _ _ => "[object Object]"

/-- One related-link list item (app.js lines 258 to 262): records with
a truthy `url` link externally, everything else anchors to `#`. -/
def relatedLinkLi (l : LinkEntry) : String :=
  match l with
  | .record t u =>
    if u != "" then "<li><a href=\"" ++ u ++ "\" target=\"_blank\">" ++ t ++ "</a></li>"
    else "<li><a href=\"#\">" ++ linkEntryStr l ++ "</a></li>"
  | .plain s => "<li><a href=\"#\">" ++ s ++ "</a></li>"

/-- Embedding of `renderRelatedLinks` (app.js lines 255 to 266). -/
def renderRelatedLinks (links : List LinkEntry) : String :=
  "<div class=\"related-links\"><ul>" ++ concatMap relatedLinkLi links ++ "</ul></div>"

/-- One reference list item (app.js line 274) at zero-based index k. -/
def refLi (k : Nat) (r : String) : String :=
  "<li id=\"ref" ++ toString (k + 1) ++ "\">^ <a href=\"#\">" ++ r ++ "</a></li>"

/-- The indexed loop body of `renderReferences` (app.js lines 273 to
275), carrying the running zero-based index. -/
def renderRefItems : Nat → List String → String
  | _, [] => ""
  | k, r :: rs => refLi k r ++ renderRefItems (k + 1) rs

/-- Embedding of `renderReferences` (app.js lines 271 to 278). -/
def renderReferences (refs : List String) : String :=
  "<div class=\"references\"><ol>" ++ renderRefItems 0 refs ++ "</ol></div>"

/-- One external-link list item (app.js line 286). -/
def extLinkLi (l : ExtLink) : String :=
  "<li><a href=\"" ++ l.url ++ "\" class=\"external\">" ++ l.title ++ "</a></li>"

/-- Embedding of `renderExternalLinks` (app.js lines 283 to 290). -/
def renderExternalLinks (links : List ExtLink) : String :=
  "<ul>" ++ concatMap extLinkLi links ++ "</ul>"

/-- One category list item (app.js lines 298 to 302): records with a
truthy `url` link externally with `target="_blank"`, everything else
anchors to `#`. -/
def categoryLi (c : LinkEntry) : String :=
  match c with
  | .record t u =>
    if u != "" then "<li><a href=\"" ++ u ++ "\" target=\"_blank\">" ++ t ++ "</a></li>"
    else "<li><a href=\"#\">" ++ linkEntryStr c ++ "</a></li>"
  | .plain s => "<li><a href=\"#\">" ++ s ++ "</a></li>"

/-- Embedding of `renderCategories` (app.js lines 295 to 306). -/
def renderCategories (cats : List LinkEntry) : String :=
  "<div class=\"categories\"><span class=\"categories-title\">カテゴリ:</span><ul>"
  ++ concatMap categoryLi cats ++ "</ul></div>"

/-- One subsection emission (app.js lines 177 to 178). -/
def subsectionHtml (sub : Subsection) : String :=
  "<h3 id=\"" ++ sub.id ++ "\">" ++ sub.title ++ "</h3>" ++ sub.content

/-- Embedding of `renderSection` (app.js lines 165 to 209): heading
with the fixed edit affordance, then each optional block in source
order. -/
def renderSection (s : Section) : String :=
  "<section id=\"" ++ s.id ++ "\">"
  ++ ("<h2><span class=\"section-edit\">[<a href=\"#\">編集</a>]</span>" ++ s.title ++ "</h2>")
  ++ optStrT s.content (fun c => c)
  ++ optStr s.subsections (concatMap subsectionHtml)
  ++ optStr s.table renderTable
  ++ optStr s.columns renderColumns
  ++ optStr s.relatedLinks renderRelatedLinks
  ++ optStr s.references renderReferences
  ++ optStr s.externalLinks renderExternalLinks
  ++ "</section>"

/-- Embedding of `renderArticle` (app.js lines 35 to 71): notice (when
present), title heading, intro paragraph, toc, infobox (when present),
the sections in order, categories, and the last-modified line (when
present and truthy). -/
def renderArticle (d : ArticleRecord) : String :=
  optStr d.notice renderNotice
  ++ ("<h1 class=\"article-title\">" ++ d.title ++ "</h1>")
  ++ ("<div class=\"article-intro\"><p>" ++ d.intro ++ "</p></div>")
  ++ renderToc d.toc
  ++ optStr d.infobox renderInfobox
  ++ concatMap renderSection d.sections
  ++ renderCategories d.categories
  ++ optStrT d.lastModified (fun lm => "<div class=\"last-modified\">最終更新 " ++ lm ++ "</div>")

/-- A DOM node: an element with an id (standing for what a selector
matches) and children, or a text node (fetched markup is modelled as an
opaque text child). -/
inductive DomNode where
  | elem : String → List DomNode → DomNode
  | text : String → DomNode

/-- Result of the `switch (insertPosition)` dispatch of `loadPart`
(parts-loader.js lines 28 to 45) on a matched element: `append` is
`insertAdjacentHTML('beforeend')`, `prepend` is `'afterbegin'`,
`before` is `'beforebegin'`, `after` is `'afterend'`, and `replace`
together with the default branch assigns `innerHTML`.  The element is
returned together with any new siblings. -/
def insertAdjacentResult (pos html i : String) (cs : List DomNode) : List DomNode :=
  if pos == "append" then [DomNode.elem i (cs ++ [DomNode.text html])]
  else if pos == "prepend" then [DomNode.elem i (DomNode.text html :: cs)]
  else if pos == "before" then [DomNode.text html, DomNode.elem i cs]
  else if pos == "after" then [DomNode.elem i cs, DomNode.text html]
  else [DomNode.elem i [DomNode.text html]]

mutual

/-- Depth-first pre-order search of one node for the first element
matching the selector (part of the `document.querySelector` of
parts-loader.js line 21): a matching element is replaced by the result
of the position dispatch, a non-matching element is searched inside its
children, and a text node never matches. -/
def applyNode (sel pos html : String) : DomNode → Option (List DomNode)
  | DomNode.elem i cs =>
    if i == sel then some (insertAdjacentResult pos html i cs)
    else
      match applyList sel pos html cs with
      | some cs2 => some [DomNode.elem i cs2]
      | none => none
  | DomNode.text _ => none

/-- Depth-first pre-order search of a sibling list for the first
element matching the selector, splicing in the result of the position
dispatch at the match; `none` when no element matches. -/
def applyList (sel pos html : String) : List DomNode → Option (List DomNode)
  | [] => none
  | n :: rest =>
    match applyNode sel pos html n with
    | some ns => some (ns ++ rest)
    | none =>
      match applyList sel pos html rest with
      | some rest2 => some (n :: rest2)
      | none => none

end

/-- Embedding of `PartsLoader.loadPart` (parts-loader.js lines 14 to
49) acting on a document: the fetch outcome is passed in (`none` for a
failed fetch, whose exception is caught leaving the document as it
was); a missing target is skipped; otherwise the fetched text is
spliced at the requested position. -/
def loadPart (fetched : Option String) (sel pos : String) (doc : List DomNode) : List DomNode :=
  match fetched with
  | none => doc
  | some html =>
    match applyList sel pos html doc with
    | none => doc
    | some doc2 => doc2

/-- A fragment spec `{path, selector, position?}` of
`PartsLoader.loadParts` (parts-loader.js lines 56 to 61). -/
structure FragmentSpec where
  path : String
  selector : String
  position : Option String

/-- Embedding of `PartsLoader.loadParts` (parts-loader.js lines 56 to
61): every spec is applied with `part.position || 'replace'`; the
network is modelled by a function from path to fetch outcome.  The
specs write to their (distinct) targets, so the concurrent fan-out of
the source is modelled by applying them in order. -/
def loadParts (fetchFn : String → Option String) (specs : List FragmentSpec) (doc : List DomNode) : List DomNode :=
  specs.foldl (fun d spec => loadPart (fetchFn spec.path) spec.selector (jsOr spec.position "replace") d) doc

/-- Forget a toc entry's own children (used to state that the renderer
never reads the `children` field of a depth-2 entry). -/
def stripChild : TocNode → TocNode
  | .mk i n t _ => .mk i n t []

/-- Forget the grandchildren of a toc entry: the children are kept but
their own `children` fields are dropped. -/
def stripGrand : TocNode → TocNode
  | .mk i n t cs => .mk i n t (cs.map stripChild)

/-- A concrete network for the four standard layout fragments in which
exactly the sidebar fetch fails. -/
def fetch4 (p : String) : Option String :=
  if p == "parts/header.html" then some "<header></header>"
  else if p == "parts/article-tabs.html" then some "<nav></nav>"
  else if p == "parts/footer.html" then some "<footer></footer>"
  else none

/-- The four standard layout fragment specs of
`PartsLoader.loadStandardLayout` (parts-loader.js lines 68 to 73). -/
def specs4 : List FragmentSpec :=
  [⟨"parts/header.html", "header-placeholder", some "replace"⟩,
   ⟨"parts/sidebar.html", "sidebar-placeholder", some "replace"⟩,
   ⟨"parts/article-tabs.html", "article-tabs-placeholder", some "replace"⟩,
   ⟨"parts/footer.html", "footer-placeholder", some "replace"⟩]

/-- A host document with the four distinct placeholder targets. -/
def doc4 : List DomNode :=
  [DomNode.elem "header-placeholder" [],
   DomNode.elem "sidebar-placeholder" [DomNode.text "untouched"],
   DomNode.elem "article-tabs-placeholder" [],
   DomNode.elem "footer-placeholder" []]

/-- Appending the empty string on the right is the identity. -/
theorem append_empty_str (s : String) : s ++ "" = s := by
  cases s
  simp [String.append]

/-- Appending the empty string on the left is the identity. -/
theorem empty_append_str (s : String) : "" ++ s = s := rfl

/-- C1: for a minimal valid article record (title, intro, toc possibly
empty, sections, categories; notice, infobox and lastModified absent)
`renderArticle` produces exactly the title heading, the intro
paragraph, the toc container (emitted even for an empty toc), the
section blocks (each opening with its heading) and the categories
block, with nothing emitted for notice, infobox or lastModified. -/
theorem C1_minimal_render :
    (∀ (t i : String) (toc : List TocNode) (ss : List Section) (cats : List LinkEntry),
      renderArticle ⟨t, i, none, toc, none, ss, cats, none⟩ =
        "<h1 class=\"article-title\">" ++ t ++ "</h1>"
        ++ "<div class=\"article-intro\"><p>" ++ i ++ "</p></div>"
        ++ renderToc toc
        ++ concatMap renderSection ss
        ++ renderCategories cats)
    ∧ renderToc [] = tocOpen ++ "</ul></div>"
    ∧ (∀ s : Section, ∃ rest : String,
        renderSection s =
          "<section id=\"" ++ s.id ++ "\">"
          ++ "<h2><span class=\"section-edit\">[<a href=\"#\">編集</a>]</span>" ++ s.title ++ "</h2>"
          ++ rest) := by
  refine ⟨?_, ?_, ?_⟩
  · intro t i toc ss cats
    simp [renderArticle, optStr, optStrT, String.ext_iff, String.data_append]
  · simp [renderToc, concatMap, append_empty_str, empty_append_str]
  · intro s
    refine ⟨optStrT s.content (fun c => c)
      ++ optStr s.subsections (concatMap subsectionHtml)
      ++ optStr s.table renderTable
      ++ optStr s.columns renderColumns
      ++ optStr s.relatedLinks renderRelatedLinks
      ++ optStr s.references renderReferences
      ++ optStr s.externalLinks renderExternalLinks
      ++ "</section>", ?_⟩
    simp [renderSection, String.ext_iff, String.data_append]

/-- C2: a toc entry with two children renders as one outer list item
holding a single nested two-item list, and rendering never descends
further: the `children` field of a depth-2 entry is ignored, so no
third nesting level can appear. -/
theorem C2_toc_two_level :
    (∀ (pid pnum ptitle : String) (c1 c2 : TocNode),
      renderToc [TocNode.mk pid pnum ptitle [c1, c2]] =
        tocOpen ++ "<li><a href=\"#" ++ pid ++ "\"><span class=\"toc-number\">" ++ pnum
        ++ "</span> " ++ ptitle ++ "</a>" ++ "<ul>" ++ tocChildLi c1 ++ tocChildLi c2
        ++ "</ul>" ++ "</li>" ++ "</ul></div>")
    ∧ (∀ items : List TocNode, renderToc items = renderToc (items.map stripGrand)) := by
  constructor
  · intro pid pnum ptitle c1 c2
    simp [renderToc, concatMap, tocItemHtml, String.ext_iff, String.data_append]
  · intro items
    have hchild : ∀ c : TocNode, tocChildLi (stripChild c) = tocChildLi c := by
      intro c
      cases c
      rfl
    have hkids : ∀ cs : List TocNode,
        concatMap tocChildLi (cs.map stripChild) = concatMap tocChildLi cs := by
      intro cs
      induction cs with
      | nil => rfl
      | cons c cs ihc => simp [concatMap, hchild, ihc]
    have hitem : ∀ item : TocNode, tocItemHtml (stripGrand item) = tocItemHtml item := by
      intro item
      cases item with
      | mk i n t cs => simp [stripGrand, tocItemHtml, hkids]
    have hall : ∀ l : List TocNode,
        concatMap tocItemHtml (l.map stripGrand) = concatMap tocItemHtml l := by
      intro l
      induction l with
      | nil => rfl
      | cons x xs ihx => simp [concatMap, hitem, ihx]
    simp [renderToc, hall]

/-- C8: the section blocks appear in the rendered article in exactly
the order of the `sections` array: the article output embeds the
concatenation of the per-section renderings in list order, and that
concatenation is a monoid homomorphism from list append, so it
preserves order. -/
theorem C8_section_order :
    (∀ d : ArticleRecord, ∃ pre post : String,
      renderArticle d = pre ++ concatMap renderSection d.sections ++ post)
    ∧ (∀ l1 l2 : List Section,
      concatMap renderSection (l1 ++ l2)
        = concatMap renderSection l1 ++ concatMap renderSection l2) := by
  constructor
  · intro d
    refine ⟨optStr d.notice renderNotice
      ++ "<h1 class=\"article-title\">" ++ d.title ++ "</h1>"
      ++ "<div class=\"article-intro\"><p>" ++ d.intro ++ "</p></div>"
      ++ renderToc d.toc
      ++ optStr d.infobox renderInfobox,
      renderCategories d.categories
      ++ optStrT d.lastModified (fun lm => "<div class=\"last-modified\">最終更新 " ++ lm ++ "</div>"), ?_⟩
    simp [renderArticle, String.ext_iff, String.data_append]
  · intro l1 l2
    induction l1 with
    | nil => simp [concatMap, empty_append_str]
    | cons s ss ih => simp [concatMap, ih, String.append_assoc]

/-- Decomposition of the indexed reference loop around any index below
the list length: the emitted run splits into the entries before it, the
entry at the index, and the entries after it. -/
theorem renderRefItems_split (xs : List String) :
    ∀ (i : Nat) (h : i < xs.length) (j : Nat),
      renderRefItems j xs =
        renderRefItems j (xs.take i) ++ refLi (j + i) (xs.get ⟨i, h⟩)
        ++ renderRefItems (j + i + 1) (xs.drop (i + 1)) := by
  induction xs with
  | nil =>
    intro i h j
    simp at h
  | cons r rs ih =>
    intro i h j
    cases i with
    | zero =>
      simp [renderRefItems, String.ext_iff, String.data_append]
    | succ k =>
      have hk : k < rs.length := by simpa using h
      have hrw := ih k hk (j + 1)
      have e1 : j + (k + 1) = j + 1 + k := by omega
      show refLi j r ++ renderRefItems (j + 1) rs =
        renderRefItems j (r :: rs.take k) ++ refLi (j + (k + 1)) (rs.get ⟨k, hk⟩)
        ++ renderRefItems (j + (k + 1) + 1) (rs.drop (k + 1))
      rw [hrw, e1]
      simp [renderRefItems, String.ext_iff, String.data_append]

/-- C5: the references entry at zero-based index i is rendered as the
list item number i+1 (it is preceded by exactly the rendering of the
first i references), with anchor id `ref<i+1>`, the reference text as
the visible anchor text, and the anchor pointing to `#`. -/
theorem C5_references (refs : List String) (i : Nat) (h : i < refs.length) :
    renderReferences refs =
      "<div class=\"references\"><ol>" ++ renderRefItems 0 (refs.take i)
      ++ ("<li id=\"ref" ++ toString (i + 1) ++ "\">^ <a href=\"#\">" ++ refs.get ⟨i, h⟩ ++ "</a></li>")
      ++ renderRefItems (i + 1) (refs.drop (i + 1)) ++ "</ol></div>" := by
  have hs := renderRefItems_split refs i h 0
  simp only [renderReferences]
  rw [hs]
  simp [refLi, String.ext_iff, String.data_append]

/-- C5 witness: the split at index 1 of a two-reference list. -/
theorem C5_witness :
    renderReferences ["a", "b"] =
      "<div class=\"references\"><ol>" ++ renderRefItems 0 ((["a", "b"] : List String).take 1)
      ++ ("<li id=\"ref" ++ toString (1 + 1) ++ "\">^ <a href=\"#\">"
          ++ (["a", "b"] : List String).get ⟨1, by decide⟩ ++ "</a></li>")
      ++ renderRefItems (1 + 1) ((["a", "b"] : List String).drop (1 + 1)) ++ "</ol></div>" :=
  C5_references ["a", "b"] 1 (by decide)

/-- C6: in the categories block every plain-text entry renders as an
anchor to `#`, and every `{title, url}` record entry with a truthy url
renders as an anchor to that url with the external-context attribute
`target="_blank"`; the block is the concatenation of these per-entry
renderings. -/
theorem C6_categories :
    (∀ cats : List LinkEntry,
      renderCategories cats =
        "<div class=\"categories\"><span class=\"categories-title\">カテゴリ:</span><ul>"
        ++ concatMap categoryLi cats ++ "</ul></div>")
    ∧ (∀ s : String, categoryLi (.plain s) = "<li><a href=\"#\">" ++ s ++ "</a></li>")
    ∧ (∀ t u : String, u ≠ "" →
      categoryLi (.record t u)
        = "<li><a href=\"" ++ u ++ "\" target=\"_blank\">" ++ t ++ "</a></li>") := by
  refine ⟨fun cats => rfl, fun s => rfl, ?_⟩
  intro t u hu
  simp [categoryLi, hu]

/-- C6 witness: a linked record entry at a concrete url. -/
theorem C6_witness :
    categoryLi (.record "Example" "https://example.com")
      = "<li><a href=\"" ++ "https://example.com" ++ "\" target=\"_blank\">" ++ "Example" ++ "</a></li>" :=
  C6_categories.2.2 "Example" "https://example.com" (by decide)

/-- C9: the notice box uses `notice.type` as its class, defaulting to
`info` when the field is absent, and `notice.icon` as its icon,
defaulting to the fixed glyph when absent, with the bolded title
followed by the text. -/
theorem C9_notice_box :
    (∀ ti te : String,
      renderNotice ⟨none, none, ti, te⟩ =
        "\n            <div class=\"article-notice " ++ "info"
        ++ "\">\n                <span class=\"notice-icon\">" ++ "ℹ️"
        ++ "</span>\n                <div class=\"notice-content\">\n                    <b>"
        ++ ti ++ "</b> " ++ te
        ++ "\n                </div>\n            </div>\n        ")
    ∧ (∀ ty ic ti te : String, ty ≠ "" → ic ≠ "" →
      renderNotice ⟨some ty, some ic, ti, te⟩ =
        "\n            <div class=\"article-notice " ++ ty
        ++ "\">\n                <span class=\"notice-icon\">" ++ ic
        ++ "</span>\n                <div class=\"notice-content\">\n                    <b>"
        ++ ti ++ "</b> " ++ te
        ++ "\n                </div>\n            </div>\n        ") := by
  constructor
  · intro ti te
    simp [renderNotice, jsOr, String.ext_iff, String.data_append]
  · intro ty ic ti te hty hic
    simp [renderNotice, jsOr, hty, hic, String.ext_iff, String.data_append]

/-- C9 witness: a notice with both optional fields present. -/
theorem C9_witness :
    renderNotice ⟨some "warning", some "⚠️", "T", "B"⟩ =
      "\n            <div class=\"article-notice " ++ "warning"
      ++ "\">\n                <span class=\"notice-icon\">" ++ "⚠️"
      ++ "</span>\n                <div class=\"notice-content\">\n                    <b>"
      ++ "T" ++ "</b> " ++ "B"
      ++ "\n                </div>\n            </div>\n        " :=
  C9_notice_box.2 "warning" "⚠️" "T" "B" (by decide) (by decide)

/-- C3 counterexample: the claim pairs `append` with insertion as the
target's first child, but on a target with an existing child the code
puts the fetched content last, which differs from first-child
placement. -/
theorem C3_counterexample :
    loadPart (some "new") "t" "append" [DomNode.elem "t" [DomNode.text "old"]]
      = [DomNode.elem "t" [DomNode.text "old", DomNode.text "new"]]
    ∧ [DomNode.elem "t" [DomNode.text "old", DomNode.text "new"]]
      ≠ [DomNode.elem "t" [DomNode.text "new", DomNode.text "old"]] := by
  constructor
  · simp [loadPart, applyList, applyNode, insertAdjacentResult]
  · simp

/-- C3 (amended): the five position values have disjoint semantics:
`replace` makes the fetched content the target's entire contents,
`append` inserts it as the target's last child, `prepend` as the
target's first child, and `before`/`after` insert it as the target's
previous/next sibling. -/
theorem C3_positions (i html : String) (cs : List DomNode) :
    loadPart (some html) i "replace" [DomNode.elem i cs] = [DomNode.elem i [DomNode.text html]]
    ∧ loadPart (some html) i "append" [DomNode.elem i cs]
      = [DomNode.elem i (cs ++ [DomNode.text html])]
    ∧ loadPart (some html) i "prepend" [DomNode.elem i cs]
      = [DomNode.elem i (DomNode.text html :: cs)]
    ∧ loadPart (some html) i "before" [DomNode.elem i cs]
      = [DomNode.text html, DomNode.elem i cs]
    ∧ loadPart (some html) i "after" [DomNode.elem i cs]
      = [DomNode.elem i cs, DomNode.text html] := by
  refine ⟨?_, ?_, ?_, ?_, ?_⟩ <;> simp [loadPart, applyList, applyNode, insertAdjacentResult]

/-- C7: with `before`/`after` the fetched text becomes the target's
immediately preceding/following sibling, and the target's own contents
are unchanged (shown inside a document with surrounding siblings). -/
theorem C7_before_after (a b html i : String) (cs : List DomNode) :
    loadPart (some html) i "before" [DomNode.text a, DomNode.elem i cs, DomNode.text b]
      = [DomNode.text a, DomNode.text html, DomNode.elem i cs, DomNode.text b]
    ∧ loadPart (some html) i "after" [DomNode.text a, DomNode.elem i cs, DomNode.text b]
      = [DomNode.text a, DomNode.elem i cs, DomNode.text html, DomNode.text b] := by
  constructor <;> simp [loadPart, applyList, applyNode, insertAdjacentResult]

/-- C10: a position value outside the five recognized ones falls into
the default branch and behaves exactly like `replace`: the fetched
content becomes the target's entire contents. -/
theorem C10_unrecognized_position (pos html i : String) (cs : List DomNode)
    (h1 : pos ≠ "append") (h2 : pos ≠ "prepend") (h3 : pos ≠ "before") (h4 : pos ≠ "after") :
    loadPart (some html) i pos [DomNode.elem i cs]
      = loadPart (some html) i "replace" [DomNode.elem i cs]
    ∧ loadPart (some html) i "replace" [DomNode.elem i cs]
      = [DomNode.elem i [DomNode.text html]] := by
  constructor
  · simp [loadPart, applyList, applyNode, insertAdjacentResult, h1, h2, h3, h4]
  · simp [loadPart, applyList, applyNode, insertAdjacentResult]

/-- C10 witness: the unrecognized position string `bogus`. -/
theorem C10_witness :
    loadPart (some "X") "t" "bogus" [DomNode.elem "t" [DomNode.text "c"]]
      = loadPart (some "X") "t" "replace" [DomNode.elem "t" [DomNode.text "c"]]
    ∧ loadPart (some "X") "t" "replace" [DomNode.elem "t" [DomNode.text "c"]]
      = [DomNode.elem "t" [DomNode.text "X"]] :=
  C10_unrecognized_position "bogus" "X" "t" [DomNode.text "c"]
    (by decide) (by decide) (by decide) (by decide)

/-- C4: a failed fetch leaves the document untouched, and a loadParts
run in which the fetch for one spec fails behaves exactly as the run
with that spec removed, so every sibling spec's target is populated
according to its own spec and the whole run still completes. -/
theorem C4_failure_isolation :
    (∀ (sel pos : String) (doc : List DomNode), loadPart none sel pos doc = doc)
    ∧ (∀ (fetchFn : String → Option String) (specs : List FragmentSpec) (doc : List DomNode)
        (j : Nat) (h : j < specs.length),
        fetchFn (specs.get ⟨j, h⟩).path = none →
        loadParts fetchFn specs doc = loadParts fetchFn (specs.eraseIdx j) doc) := by
  refine ⟨fun sel pos doc => rfl, ?_⟩
  intro f specs
  induction specs with
  | nil =>
    intro doc j h
    exact absurd h (by simp)
  | cons s ss ih =>
    intro doc j
    cases j with
    | zero =>
      intro h hfail
      have hf : f s.path = none := hfail
      show loadParts f (s :: ss) doc = loadParts f ss doc
      simp only [loadParts, List.foldl_cons]
      rw [hf]
      rfl
    | succ k =>
      intro h hfail
      have hk : k < ss.length := by simpa using h
      have hfail2 : f (ss.get ⟨k, hk⟩).path = none := hfail
      have hstep := ih (loadPart (f s.path) s.selector (jsOr s.position "replace") doc) k hk hfail2
      show loadParts f (s :: ss) doc = loadParts f (s :: ss.eraseIdx k) doc
      simp only [loadParts, List.foldl_cons]
      simpa only [loadParts] using hstep

/-- C4 witness: the four standard layout specs against a network in
which exactly the sidebar fetch fails: the run equals the run without
the sidebar spec, the three other targets are populated, and the
sidebar target keeps its prior contents. -/
theorem C4_witness :
    fetch4 "parts/sidebar.html" = none
    ∧ loadParts fetch4 specs4 doc4 = loadParts fetch4 (specs4.eraseIdx 1) doc4
    ∧ loadParts fetch4 specs4 doc4 =
      [DomNode.elem "header-placeholder" [DomNode.text "<header></header>"],
       DomNode.elem "sidebar-placeholder" [DomNode.text "untouched"],
       DomNode.elem "article-tabs-placeholder" [DomNode.text "<nav></nav>"],
       DomNode.elem "footer-placeholder" [DomNode.text "<footer></footer>"]] :=
  ⟨rfl, C4_failure_isolation.2 fetch4 specs4 doc4 1 (by decide) rfl, rfl⟩

end Wiki
